import Mathlib

/-
  Verification of the offline-cache service worker of the Calculadora
  repository (src/service-worker.js) against its natural-language
  specification.  The worker is embedded shallowly: responses, cache
  partitions and the network are explicit data; each strategy becomes a
  pure function from its inputs (request key, network outcomes, cache
  state) to the returned response and the updated cache state.
-/

set_option autoImplicit false

namespace SW

/-- Response type as far as the worker inspects it: `basic` covers every
same-origin or CORS response, `opaque` the cross-origin no-cors ones
(`res.type === "opaque"` in the source). -/
inductive ResType where
  | basic
  | opaqueType
deriving DecidableEq

/-- A network response as the worker observes it: a status code, the
response type and an abstract body. -/
structure Response where
  status : Nat
  rtype : ResType
  body : String
deriving DecidableEq

/-- The `res.ok` accessor of the platform: status in the range 200-299. -/
def Response.ok (r : Response) : Bool :=
  200 ≤ r.status && r.status ≤ 299

/-- The `res.type === "opaque"` test of the source. -/
def Response.isOpaque (r : Response) : Bool :=
  r.rtype == ResType.opaqueType

/-- A cache partition: an association list from request URL to the stored
response snapshot.  `cachePut` overwrites, `cacheMatch` looks up. -/
abbrev Cache := List (String × Response)

/-- The empty partition (a freshly opened cache). -/
def cacheEmpty : Cache := []

/-- `cache.match(url)`: the stored response for `url`, if any. -/
def cacheMatch (c : Cache) (u : String) : Option Response :=
  (c.find? (fun p => p.1 == u)).map (fun p => p.2)

/-- `cache.put(url, res)`: store `res` under `url`, overwriting any
previous entry for the same key. -/
def cachePut (c : Cache) (u : String) (r : Response) : Cache :=
  (u, r) :: c.filter (fun p => p.1 != u)

-- Worker-scoped constants (src/service-worker.js lines 11-18).

/-- Cache version constant of the worker. -/
def VERSION : String := "v1.4.1"

/-- Name of the static-asset partition for this version. -/
def STATIC_CACHE : String := "df-static-" ++ VERSION

/-- Name of the webfont partition for this version. -/
def FONTS_CACHE : String := "df-fonts-" ++ VERSION

/-- Base-path normalisation: the scope pathname, with a trailing slash
appended when it lacks one. -/
def mkBasePath (scopePath : String) : String :=
  if scopePath.endsWith "/" then scopePath else scopePath ++ "/"

/-- URL of the app-shell document relative to a base path. -/
def INDEX_HTML (basePath : String) : String := basePath ++ "index.html"

/-- The Core Asset List populated at install time (lines 21-33). -/
def CORE_ASSETS (basePath : String) : List String :=
  [ basePath
  , INDEX_HTML basePath
  , basePath ++ "manifest.json"
  , basePath ++ "icons/icon-192.png"
  , basePath ++ "icons/icon-512.png"
  , basePath ++ "icons/icon-192-maskable.png"
  , basePath ++ "icons/icon-512-maskable.png"
  , basePath ++ "icons/apple-touch-icon-180.png"
  , basePath ++ "icons/favicon-32.png"
  , basePath ++ "icons/favicon-16.png"
  , basePath ++ "icons/favicon.ico" ]

-- Request classification (fetch listener, lines 88-120).

/-- The fields of an intercepted request that the fetch listener reads:
its mode, its origin and its URL pathname. -/
structure Request where
  mode : String
  origin : String
  pathname : String
deriving DecidableEq

/-- The static-asset extension set of the listener, one entry per
alternative of the regular expression
`\.(?:css|js|mjs|png|jpg|jpeg|webp|svg|ico|gif|json|txt|woff2?)$` with
the leading dot included. -/
def staticExts : List String :=
  [".css", ".js", ".mjs", ".png", ".jpg", ".jpeg", ".webp", ".svg",
   ".ico", ".gif", ".json", ".txt", ".woff", ".woff2"]

/-- Suffix test on character lists: `s` ends with `e`. -/
def listEndsWith (s e : List Char) : Bool :=
  e.reverse.isPrefixOf s.reverse

/-- The case-insensitive, end-anchored test of the listener regular
expression on `url.pathname`: the ASCII-lowercased pathname ends with one
of the dotted extensions. -/
def isStaticAsset (pathname : String) : Bool :=
  staticExts.any (fun e => listEndsWith (pathname.data.map Char.toLower) e.data)

/-- The outcome of classifying one intercepted request: which strategy
handles it, on which partition, and with which options.  `networkFirstH`
carries the partition that `networkFirstHTML` operates on. -/
inductive Handling where
  | networkFirstH : String → Handling
  | swrH : String → Handling
  | cacheFirstH : String → Bool → Handling
  | passThrough : Handling
deriving DecidableEq

/-- The fetch listener dispatch (lines 88-120): rules tried in source
order, first match wins. -/
def classify (selfOrigin : String) (req : Request) : Handling :=
  if req.mode == "navigate" then
    Handling.networkFirstH STATIC_CACHE
  else if req.origin == "https://fonts.googleapis.com" then
    Handling.swrH FONTS_CACHE
  else if req.origin == "https://fonts.gstatic.com" then
    Handling.cacheFirstH FONTS_CACHE false
  else if req.origin == selfOrigin && isStaticAsset req.pathname then
    Handling.cacheFirstH STATIC_CACHE true
  else
    Handling.passThrough

-- Install population (addAllSafe, lines 36-49; install listener, 51-58).

/-- The network as an oracle: for each URL, either a completed response
(`some`) or a rejected fetch (`none`). -/
abbrev Net := String → Option Response

/-- `addAllSafe` (lines 36-49): fetch every URL of the list and store the
response when it is ok or opaque; a rejected fetch, or a completed
response that is neither ok nor opaque, leaves the cache untouched for
that URL and never aborts the rest.  The function is total: no error
escapes to the caller. -/
def addAllSafe (net : Net) (cache : Cache) (urls : List String) : Cache :=
  urls.foldl
    (fun c u =>
      match net u with
      | some res => if res.ok || res.isOpaque then cachePut c u res else c
      | none => c)
    cache

/-- The result of the install handler: the populated static partition and
whether `self.skipWaiting()` was invoked. -/
structure InstallResult where
  staticCache : Cache
  skipWaitingCalled : Bool
deriving DecidableEq

/-- The install listener (lines 51-58): open the static partition (empty
when absent), populate it best-effort with the Core Asset List, then call
`self.skipWaiting()` unconditionally. -/
def installHandler (net : Net) (basePath : String) : InstallResult :=
  { staticCache := addAllSafe net cacheEmpty (CORE_ASSETS basePath)
  , skipWaitingCalled := true }

/-- The events for which the worker registers a listener
(`self.addEventListener` at lines 51, 60 and 88; there are no others in
the source). -/
def registeredEvents : List String := ["install", "activate", "fetch"]

-- Activate cleanup (activate listener, lines 60-86).

/-- The whole cache storage: every live partition, by name. -/
abbrev CacheStorage := List (String × Cache)

/-- `caches.delete(name)`: drop the partition called `name`. -/
def cachesDelete (st : CacheStorage) (name : String) : CacheStorage :=
  st.filter (fun p => p.1 != name)

/-- The names of all live partitions, as `caches.keys()` returns them. -/
def cachesKeys (st : CacheStorage) : List String :=
  st.map (fun p => p.1)

/-- The garbage-collection step of the activate listener (lines 63-68):
enumerate all partition names, keep those equal to the current static or
fonts name, delete every other one. -/
def activateCleanup (st : CacheStorage) : CacheStorage :=
  ((cachesKeys st).filter
      (fun k => !(k == STATIC_CACHE) && !(k == FONTS_CACHE))).foldl
    cachesDelete st

-- Strategies (lines 124-173).

/-- `networkFirstHTML` (lines 124-140) for a navigation request with URL
`reqUrl`: if a preload response is available return it at once (note: it
is not written to the cache); otherwise fetch, write the response to the
static partition unconditionally and return it; if the fetch rejects,
fall back to the cached app shell, else to a synthetic 503. -/
def networkFirstHTML (basePath reqUrl : String) (preload net : Option Response)
    (staticCache : Cache) : Response × Cache :=
  match preload with
  | some p => (p, staticCache)
  | none =>
    match net with
    | some netRes => (netRes, cachePut staticCache reqUrl netRes)
    | none =>
      match cacheMatch staticCache (INDEX_HTML basePath) with
      | some fallback => (fallback, staticCache)
      | none => ({ status := 503, rtype := ResType.basic, body := "Offline" }, staticCache)

/-- `staleWhileRevalidate` (lines 142-152): `net1` is the outcome of the
raced fetch, `net2` the outcome of the final unmediated fetch that only
happens when the cache is empty and `net1` rejected.  Returns the value
handed to the caller (`none` when every tier fails) and the updated
partition. -/
def staleWhileRevalidate (net1 net2 : Option Response) (cache : Cache)
    (reqUrl : String) : Option Response × Cache :=
  let cache' :=
    match net1 with
    | some res => if res.ok || res.isOpaque then cachePut cache reqUrl res else cache
    | none => cache
  match cacheMatch cache reqUrl with
  | some cached => (some cached, cache')
  | none =>
    match net1 with
    | some res => (some res, cache')
    | none => (net2, cache)

/-- `cacheFirst` (lines 154-173): on a hit return the cached value, with
an optional fire-and-forget revalidation that overwrites the entry when
the re-fetch completes ok or opaque; on a miss fetch, store the response
when ok or opaque, and return it; a rejected miss fetch propagates
(`none`). -/
def cacheFirst (net : Option Response) (cache : Cache) (reqUrl : String)
    (revalidate : Bool) : Option Response × Cache :=
  match cacheMatch cache reqUrl with
  | some cached =>
    let cache' :=
      if revalidate then
        match net with
        | some res => if res.ok || res.isOpaque then cachePut cache reqUrl res else cache
        | none => cache
      else cache
    (some cached, cache')
  | none =>
    match net with
    | some res =>
      (some res, if res.ok || res.isOpaque then cachePut cache reqUrl res else cache)
    | none => (none, cache)

-- Theorems.

/-- C1: the fetch listener applies its rules in order with first match
winning: a `navigate` request goes to network-first on the static
partition; else a `https://fonts.googleapis.com` request goes to
stale-while-revalidate on the fonts partition; else a
`https://fonts.gstatic.com` request goes to cache-first on the fonts
partition; else a same-origin request whose path matches the
static-asset extension set goes to cache-first with revalidation on the
static partition; every other request passes through. -/
theorem classify_first_match_wins (o : String) (r : Request) :
    (r.mode = "navigate" → classify o r = Handling.networkFirstH STATIC_CACHE) ∧
    (r.mode ≠ "navigate" → r.origin = "https://fonts.googleapis.com" →
      classify o r = Handling.swrH FONTS_CACHE) ∧
    (r.mode ≠ "navigate" → r.origin ≠ "https://fonts.googleapis.com" →
      r.origin = "https://fonts.gstatic.com" →
      classify o r = Handling.cacheFirstH FONTS_CACHE false) ∧
    (r.mode ≠ "navigate" → r.origin ≠ "https://fonts.googleapis.com" →
      r.origin ≠ "https://fonts.gstatic.com" →
      r.origin = o → isStaticAsset r.pathname = true →
      classify o r = Handling.cacheFirstH STATIC_CACHE true) ∧
    (r.mode ≠ "navigate" → r.origin ≠ "https://fonts.googleapis.com" →
      r.origin ≠ "https://fonts.gstatic.com" →
      ¬(r.origin = o ∧ isStaticAsset r.pathname = true) →
      classify o r = Handling.passThrough) := by
  refine ⟨?_, ?_, ?_, ?_, ?_⟩ <;> intros <;> simp_all [classify]

/-- Concrete instantiation of `classify_first_match_wins`: one request
per rule, each hypothesis discharged by evaluation. -/
theorem classify_first_match_wins_witness :
    classify "https://a.b" ⟨"navigate", "https://a.b", "/"⟩ =
      Handling.networkFirstH STATIC_CACHE ∧
    classify "https://a.b" ⟨"no-cors", "https://fonts.googleapis.com", "/css2"⟩ =
      Handling.swrH FONTS_CACHE ∧
    classify "https://a.b" ⟨"no-cors", "https://fonts.gstatic.com", "/f.woff2"⟩ =
      Handling.cacheFirstH FONTS_CACHE false ∧
    classify "https://a.b" ⟨"cors", "https://a.b", "/app.js"⟩ =
      Handling.cacheFirstH STATIC_CACHE true ∧
    classify "https://a.b" ⟨"cors", "https://api.other", "/v1/data"⟩ =
      Handling.passThrough :=
  ⟨(classify_first_match_wins "https://a.b" ⟨"navigate", "https://a.b", "/"⟩).1 rfl,
   (classify_first_match_wins "https://a.b"
      ⟨"no-cors", "https://fonts.googleapis.com", "/css2"⟩).2.1 (by decide) rfl,
   (classify_first_match_wins "https://a.b"
      ⟨"no-cors", "https://fonts.gstatic.com", "/f.woff2"⟩).2.2.1
     (by decide) (by decide) rfl,
   (classify_first_match_wins "https://a.b"
      ⟨"cors", "https://a.b", "/app.js"⟩).2.2.2.1
     (by decide) (by decide) (by decide) rfl (by decide),
   (classify_first_match_wins "https://a.b"
      ⟨"cors", "https://api.other", "/v1/data"⟩).2.2.2.2
     (by decide) (by decide) (by decide) (by decide)⟩

/-- Looking up the key just written returns the written response. -/
theorem cacheMatch_cachePut_self (c : Cache) (u : String) (r : Response) :
    cacheMatch (cachePut c u r) u = some r := by
  simp [cacheMatch, cachePut, List.find?]

/-- Counterexample to C2: a successful preload response is returned as
the navigation result, yet the static partition is left untouched — the
entry for the request is still absent afterwards. -/
theorem networkFirst_preload_not_cached_cex :
    (networkFirstHTML "/" "/" (some ⟨200, ResType.basic, "shell"⟩) none cacheEmpty).1 =
      ⟨200, ResType.basic, "shell"⟩ ∧
    Response.ok ⟨200, ResType.basic, "shell"⟩ = true ∧
    cacheMatch
      (networkFirstHTML "/" "/" (some ⟨200, ResType.basic, "shell"⟩) none cacheEmpty).2
      "/" = none := by
  decide

/-- C2 as amended: for a navigation request, a response obtained from a
live fetch (no preload available) is written to the static partition
before being returned; a preload response is returned immediately with
the partition unchanged, so it is never written. -/
theorem networkFirst_success_write_before_return (bp u : String) (r : Response)
    (c : Cache) (_hok : r.ok = true) :
    networkFirstHTML bp u none (some r) c = (r, cachePut c u r) ∧
    cacheMatch (networkFirstHTML bp u none (some r) c).2 u = some r ∧
    (∀ p : Response, ∀ net : Option Response,
      networkFirstHTML bp u (some p) net c = (p, c)) := by
  refine ⟨rfl, ?_, fun p net => rfl⟩
  simpa [networkFirstHTML] using cacheMatch_cachePut_self c u r

/-- Concrete instantiation of `networkFirst_success_write_before_return`. -/
theorem networkFirst_success_write_before_return_witness :
    cacheMatch
      (networkFirstHTML "/" "/" none (some ⟨200, ResType.basic, "page"⟩) cacheEmpty).2
      "/" = some ⟨200, ResType.basic, "page"⟩ :=
  (networkFirst_success_write_before_return "/" "/" ⟨200, ResType.basic, "page"⟩
    cacheEmpty (by decide)).2.1

/-- C3: when preload and live fetch both fail, a previously cached shell
document (a status-200 snapshot stored under the index.html key) is
returned with its content and status 200; with no cached shell the
result has status exactly 503. -/
theorem networkFirst_offline_fallback (bp u : String) (c : Cache) :
    (∀ shell : Response, cacheMatch c (INDEX_HTML bp) = some shell →
      shell.status = 200 →
      (networkFirstHTML bp u none none c).1 = shell ∧
      (networkFirstHTML bp u none none c).1.status = 200 ∧
      (networkFirstHTML bp u none none c).1.body = shell.body) ∧
    (cacheMatch c (INDEX_HTML bp) = none →
      (networkFirstHTML bp u none none c).1.status = 503) := by
  constructor
  · intro shell hs h200
    simp [networkFirstHTML, hs, h200]
  · intro hn
    simp [networkFirstHTML, hn]

/-- Concrete instantiation of `networkFirst_offline_fallback`: one cache
holding a shell, one empty cache. -/
theorem networkFirst_offline_fallback_witness :
    (networkFirstHTML "/" "/page" none none
        [("/index.html", ⟨200, ResType.basic, "shell"⟩)]).1 =
      ⟨200, ResType.basic, "shell"⟩ ∧
    (networkFirstHTML "/" "/page" none none cacheEmpty).1.status = 503 :=
  ⟨((networkFirst_offline_fallback "/" "/page"
        [("/index.html", ⟨200, ResType.basic, "shell"⟩)]).1
      ⟨200, ResType.basic, "shell"⟩ (by decide) rfl).1,
   (networkFirst_offline_fallback "/" "/page" cacheEmpty).2 rfl⟩

/-- C10: with no preload, a completed live fetch during navigation is
written to the static partition unconditionally — the response is stored
under the request key whatever its status, ok or not — and then
returned. -/
theorem networkFirst_caches_without_status_check (bp u : String) (r : Response)
    (c : Cache) :
    networkFirstHTML bp u none (some r) c = (r, cachePut c u r) ∧
    cacheMatch (networkFirstHTML bp u none (some r) c).2 u = some r := by
  refine ⟨rfl, ?_⟩
  simpa [networkFirstHTML] using cacheMatch_cachePut_self c u r

/-- Folding `cachesDelete` over a list of names keeps exactly the
partitions whose name is not in the list. -/
theorem foldl_cachesDelete (L : List String) (st : CacheStorage) :
    L.foldl cachesDelete st = st.filter (fun p => !(L.contains p.1)) := by
  induction L generalizing st with
  | nil => simp
  | cons x L ih =>
    rw [List.foldl_cons, ih]
    show (st.filter fun p => p.1 != x).filter _ = _
    rw [List.filter_filter]
    apply List.filter_congr
    intro p hp
    by_cases h : p.1 = x <;>
      simp [List.contains_cons, Bool.not_or, bne, Bool.and_comm, h]

/-- The activate cleanup keeps exactly the partitions bearing one of the
two current names. -/
theorem activateCleanup_eq (st : CacheStorage) :
    activateCleanup st =
      st.filter (fun p => p.1 == STATIC_CACHE || p.1 == FONTS_CACHE) := by
  rw [activateCleanup, foldl_cachesDelete]
  apply List.filter_congr
  intro p hp
  have hkey : p.1 ∈ cachesKeys st := List.mem_map_of_mem _ hp
  by_cases hs : p.1 = STATIC_CACHE
  · simp [hs, List.elem_iff, List.mem_filter]
  · by_cases hf : p.1 = FONTS_CACHE
    · simp [hf, List.elem_iff, List.mem_filter]
    · simp [hs, hf, List.elem_iff, List.mem_filter, hkey]

/-- C4: after the activate cleanup the storage holds only partitions
named after the current static or fonts partition; every partition
bearing both current names survives, and every partition whose name
differs from both has been deleted. -/
theorem activate_removes_stale_partitions (st : CacheStorage) :
    (∀ p ∈ activateCleanup st, p.1 = STATIC_CACHE ∨ p.1 = FONTS_CACHE) ∧
    (∀ p ∈ st, (p.1 = STATIC_CACHE ∨ p.1 = FONTS_CACHE) →
      p ∈ activateCleanup st) ∧
    (∀ p ∈ st, p.1 ≠ STATIC_CACHE → p.1 ≠ FONTS_CACHE →
      p ∉ activateCleanup st) := by
  have h := activateCleanup_eq st
  refine ⟨?_, ?_, ?_⟩
  · intro p hp
    rw [h] at hp
    have := (List.mem_filter.1 hp).2
    simpa using this
  · intro p hp hor
    rw [h]
    refine List.mem_filter.2 ⟨hp, ?_⟩
    rcases hor with h1 | h1 <;> simp [h1]
  · intro p _ hs hf hmem
    rw [h] at hmem
    have := (List.mem_filter.1 hmem).2
    simp [hs, hf] at this

/-- Concrete instantiation of `activate_removes_stale_partitions`: a
storage holding the current static partition and a stale one; the stale
partition is gone afterwards, the current one survives. -/
theorem activate_removes_stale_partitions_witness :
    ("df-static-v1.3.0", cacheEmpty) ∉
      activateCleanup
        [(STATIC_CACHE, cacheEmpty), ("df-static-v1.3.0", cacheEmpty)] ∧
    (STATIC_CACHE, cacheEmpty) ∈
      activateCleanup
        [(STATIC_CACHE, cacheEmpty), ("df-static-v1.3.0", cacheEmpty)] :=
  ⟨(activate_removes_stale_partitions
        [(STATIC_CACHE, cacheEmpty), ("df-static-v1.3.0", cacheEmpty)]).2.2
      ("df-static-v1.3.0", cacheEmpty) (by simp) (by decide) (by decide),
   (activate_removes_stale_partitions
        [(STATIC_CACHE, cacheEmpty), ("df-static-v1.3.0", cacheEmpty)]).2.1
      (STATIC_CACHE, cacheEmpty) (by simp) (Or.inl rfl)⟩

/-- Filtering out the key `w` does not change the first hit for a
different key `k`. -/
theorem find?_filter_keep (l : List (String × Response)) (w k : String)
    (hk : k ≠ w) :
    (l.filter (fun p => p.1 != w)).find? (fun p => p.1 == k) =
      l.find? (fun p => p.1 == k) := by
  rw [List.find?_filter]
  congr 1
  funext a
  by_cases h : a.1 = k
  · have hkw : ¬ k = w := hk
    simp [h, hkw]
  · simp [h]

/-- Writing under key `w` leaves the lookup of a different key `k`
unchanged. -/
theorem cacheMatch_cachePut_ne (c : Cache) (w k : String) (r : Response)
    (hk : k ≠ w) :
    cacheMatch (cachePut c w r) k = cacheMatch c k := by
  have hwk : (w == k) = false := by
    have : ¬ w = k := fun h => hk h.symm
    simp [this]
  simp only [cacheMatch, cachePut, List.find?_cons, hwk]
  rw [find?_filter_keep c w k hk]

/-- Install population is per-item independent: two networks that differ
only on URL `v` produce caches that agree on every key other than `v`,
whatever the asset list. -/
theorem addAllSafe_agree (v : String) (net1 net2 : Net)
    (hagree : ∀ w, w ≠ v → net1 w = net2 w) (urls : List String) :
    ∀ c1 c2 : Cache,
      (∀ k, k ≠ v → cacheMatch c1 k = cacheMatch c2 k) →
      ∀ k, k ≠ v →
        cacheMatch (addAllSafe net1 c1 urls) k =
          cacheMatch (addAllSafe net2 c2 urls) k := by
  induction urls with
  | nil => intro c1 c2 hc k hk; exact hc k hk
  | cons u urls ih =>
    intro c1 c2 hc k hk
    simp only [addAllSafe, List.foldl_cons]
    refine ih ?_ ?_ ?_ k hk
    intro k' hk'
    dsimp only
    by_cases hu : u = v
    · subst hu
      have e1 : cacheMatch
          (match net1 u with
           | some res => if res.ok || res.isOpaque then cachePut c1 u res else c1
           | none => c1) k' = cacheMatch c1 k' := by
        cases net1 u with
        | none => rfl
        | some res =>
          dsimp only
          split
          · exact cacheMatch_cachePut_ne c1 u k' res hk'
          · rfl
      have e2 : cacheMatch
          (match net2 u with
           | some res => if res.ok || res.isOpaque then cachePut c2 u res else c2
           | none => c2) k' = cacheMatch c2 k' := by
        cases net2 u with
        | none => rfl
        | some res =>
          dsimp only
          split
          · exact cacheMatch_cachePut_ne c2 u k' res hk'
          · rfl
      rw [e1, e2]
      exact hc k' hk'
    · rw [hagree u hu]
      cases h2 : net2 u with
      | none => exact hc k' hk'
      | some res =>
        dsimp only
        split
        · by_cases hku : k' = u
          · subst hku
            rw [cacheMatch_cachePut_self, cacheMatch_cachePut_self]
          · rw [cacheMatch_cachePut_ne c1 u k' res hku,
              cacheMatch_cachePut_ne c2 u k' res hku]
            exact hc k' hk'
        · exact hc k' hk'

/-- The asset list of the C5 scenario. -/
def scenarioAssets : List String := ["/", "/index.html", "/manifest.json"]

/-- The network of the C5 scenario: the manifest fetch rejects, every
other fetch completes with a 200 response. -/
def scenarioNet : Net := fun u =>
  if u = "/manifest.json" then none else some ⟨200, ResType.basic, "asset"⟩

/-- C5: install population is best-effort per item.  First, generally: a
network differing from another only in the outcome for one URL `v`
yields, over any asset list, a static partition identical on every other
key — one failing item never disturbs the rest, and `addAllSafe` is
total, so no error reaches the install caller.  Second, the concrete
scenario: with asset list `["/", "/index.html", "/manifest.json"]` and a
failing manifest fetch, the partition afterwards holds entries for `"/"`
and `"/index.html"` only. -/
theorem install_best_effort_per_item (net1 net2 : Net) (c : Cache)
    (urls : List String) (v : String)
    (hagree : ∀ w, w ≠ v → net1 w = net2 w) :
    (∀ k, k ≠ v →
      cacheMatch (addAllSafe net1 c urls) k =
        cacheMatch (addAllSafe net2 c urls) k) ∧
    (cacheMatch (addAllSafe scenarioNet cacheEmpty scenarioAssets) "/" =
        some ⟨200, ResType.basic, "asset"⟩ ∧
      cacheMatch (addAllSafe scenarioNet cacheEmpty scenarioAssets) "/index.html" =
        some ⟨200, ResType.basic, "asset"⟩ ∧
      cacheMatch (addAllSafe scenarioNet cacheEmpty scenarioAssets) "/manifest.json" =
        none ∧
      (addAllSafe scenarioNet cacheEmpty scenarioAssets).map (fun p => p.1) =
        ["/index.html", "/"]) :=
  ⟨fun k hk =>
    addAllSafe_agree v net1 net2 hagree urls c c (fun _ _ => rfl) k hk,
   by decide⟩

/-- Concrete instantiation of `install_best_effort_per_item`: the
scenario network against an always-succeeding one, compared away from the
manifest URL. -/
theorem install_best_effort_per_item_witness :
    cacheMatch (addAllSafe scenarioNet cacheEmpty scenarioAssets) "/" =
      cacheMatch
        (addAllSafe (fun _ => some ⟨200, ResType.basic, "asset"⟩)
          cacheEmpty scenarioAssets) "/" :=
  (install_best_effort_per_item scenarioNet
      (fun _ => some ⟨200, ResType.basic, "asset"⟩) cacheEmpty scenarioAssets
      "/manifest.json"
      (fun w hw => by simp [scenarioNet, hw])).1 "/" (by decide)

/-- C6: cache-first behaviour.  On a hit the cached entry is returned;
with revalidation on, a completed ok-or-opaque background re-fetch
overwrites the entry, a rejected one leaves the partition as it was, and
neither changes the returned value; with revalidation off the partition
is untouched.  On a miss, a completed live fetch is returned, stored
first when ok or opaque; a rejected live fetch propagates to the
caller. -/
theorem cacheFirst_spec (net : Option Response) (c : Cache) (u : String)
    (rv : Bool) :
    (∀ cd, cacheMatch c u = some cd →
      (cacheFirst net c u rv).1 = some cd ∧
      (rv = true → ∀ r, net = some r → (r.ok || r.isOpaque) = true →
        cacheMatch (cacheFirst net c u rv).2 u = some r) ∧
      (rv = true → net = none → (cacheFirst net c u rv).2 = c) ∧
      (rv = false → (cacheFirst net c u rv).2 = c)) ∧
    (cacheMatch c u = none →
      (∀ r, net = some r →
        (cacheFirst net c u rv).1 = some r ∧
        ((r.ok || r.isOpaque) = true →
          cacheMatch (cacheFirst net c u rv).2 u = some r) ∧
        ((r.ok || r.isOpaque) = false → (cacheFirst net c u rv).2 = c)) ∧
      (net = none → cacheFirst net c u rv = (none, c))) := by
  constructor
  · intro cd hcd
    refine ⟨?_, ?_, ?_, ?_⟩
    · simp [cacheFirst, hcd]
    · rintro rfl r rfl hok
      simp [cacheFirst, hcd, hok, cacheMatch_cachePut_self]
    · rintro rfl rfl
      simp [cacheFirst, hcd]
    · rintro rfl
      simp [cacheFirst, hcd]
  · intro hmiss
    constructor
    · rintro r rfl
      refine ⟨?_, ?_, ?_⟩
      · simp [cacheFirst, hmiss]
      · intro hok
        simp [cacheFirst, hmiss, hok, cacheMatch_cachePut_self]
      · intro hbad
        simp [cacheFirst, hmiss, hbad]
    · rintro rfl
      simp [cacheFirst, hmiss]

/-- Concrete instantiation of `cacheFirst_spec`: a hit whose
revalidation succeeds (old value returned, new value stored) and a miss
whose fetch rejects (failure propagated). -/
theorem cacheFirst_spec_witness :
    (cacheFirst (some ⟨200, ResType.basic, "new"⟩)
        [("/a.css", ⟨200, ResType.basic, "old"⟩)] "/a.css" true).1 =
      some ⟨200, ResType.basic, "old"⟩ ∧
    cacheMatch
      (cacheFirst (some ⟨200, ResType.basic, "new"⟩)
        [("/a.css", ⟨200, ResType.basic, "old"⟩)] "/a.css" true).2 "/a.css" =
      some ⟨200, ResType.basic, "new"⟩ ∧
    cacheFirst none cacheEmpty "/b.css" false = (none, cacheEmpty) :=
  ⟨((cacheFirst_spec (some ⟨200, ResType.basic, "new"⟩)
        [("/a.css", ⟨200, ResType.basic, "old"⟩)] "/a.css" true).1
      ⟨200, ResType.basic, "old"⟩ (by decide)).1,
   ((cacheFirst_spec (some ⟨200, ResType.basic, "new"⟩)
        [("/a.css", ⟨200, ResType.basic, "old"⟩)] "/a.css" true).1
      ⟨200, ResType.basic, "old"⟩ (by decide)).2.1 rfl
     ⟨200, ResType.basic, "new"⟩ rfl (by decide),
   ((cacheFirst_spec none cacheEmpty "/b.css" false).2 rfl).2 rfl⟩

/-- Counterexample to C7: on an empty fonts partition a live fetch that
completes with a plain 404 is returned to the caller, yet the partition
does not contain that response afterwards — the cache write only happens
for ok or opaque responses. -/
theorem swr_nonok_not_stored_cex :
    (staleWhileRevalidate (some ⟨404, ResType.basic, "nf"⟩) none cacheEmpty
        "/f.css").1 = some ⟨404, ResType.basic, "nf"⟩ ∧
    cacheMatch
      (staleWhileRevalidate (some ⟨404, ResType.basic, "nf"⟩) none cacheEmpty
        "/f.css").2 "/f.css" = none := by
  decide

/-- C7 as amended: on an empty cache the value returned equals the live
network response; the partition afterwards contains that response when
it is ok or opaque (a completed response that is neither is returned
without being stored); and when the live fetch rejects, the strategy
falls through to one final unmediated fetch whose result is returned
with the partition unchanged. -/
theorem swr_empty_cache (net1 net2 : Option Response) (c : Cache) (u : String)
    (hmiss : cacheMatch c u = none) :
    (∀ r, net1 = some r →
      (staleWhileRevalidate net1 net2 c u).1 = some r ∧
      ((r.ok || r.isOpaque) = true →
        cacheMatch (staleWhileRevalidate net1 net2 c u).2 u = some r) ∧
      ((r.ok || r.isOpaque) = false →
        (staleWhileRevalidate net1 net2 c u).2 = c)) ∧
    (net1 = none → staleWhileRevalidate net1 net2 c u = (net2, c)) := by
  constructor
  · rintro r rfl
    refine ⟨?_, ?_, ?_⟩
    · simp [staleWhileRevalidate, hmiss]
    · intro hok
      simp [staleWhileRevalidate, hmiss, hok, cacheMatch_cachePut_self]
    · intro hbad
      simp [staleWhileRevalidate, hmiss, hbad]
  · rintro rfl
    simp [staleWhileRevalidate, hmiss]

/-- Concrete instantiation of `swr_empty_cache`: a completed 200 fetch
is returned and stored; a rejected first fetch falls through to the
unmediated fetch result. -/
theorem swr_empty_cache_witness :
    (staleWhileRevalidate (some ⟨200, ResType.basic, "css"⟩) none cacheEmpty
        "/css2").1 = some ⟨200, ResType.basic, "css"⟩ ∧
    cacheMatch
      (staleWhileRevalidate (some ⟨200, ResType.basic, "css"⟩) none cacheEmpty
        "/css2").2 "/css2" = some ⟨200, ResType.basic, "css"⟩ ∧
    staleWhileRevalidate none (some ⟨200, ResType.basic, "late"⟩) cacheEmpty
        "/css2" = (some ⟨200, ResType.basic, "late"⟩, cacheEmpty) :=
  ⟨((swr_empty_cache (some ⟨200, ResType.basic, "css"⟩) none cacheEmpty "/css2"
        rfl).1 ⟨200, ResType.basic, "css"⟩ rfl).1,
   ((swr_empty_cache (some ⟨200, ResType.basic, "css"⟩) none cacheEmpty "/css2"
        rfl).1 ⟨200, ResType.basic, "css"⟩ rfl).2.1 (by decide),
   (swr_empty_cache none (some ⟨200, ResType.basic, "late"⟩) cacheEmpty "/css2"
        rfl).2 rfl⟩

/-- Counterexample to C8: the worker registers listeners for install,
activate and fetch only; no message listener exists, so no
`SKIP_WAITING` control signal is ever consumed. -/
theorem no_message_listener_cex : registeredEvents.contains "message" = false := by
  decide

/-- C8 as amended: the worker registers no message listener and consumes
no control signal; instead it calls `self.skipWaiting()` unconditionally
during install, so activation proceeds without waiting for old-version
pages to close, regardless of any message. -/
theorem skip_waiting_during_install (net : Net) (bp : String) :
    "message" ∉ registeredEvents ∧
    (installHandler net bp).skipWaitingCalled = true :=
  ⟨by decide, rfl⟩

/-- A bad response (neither ok nor opaque) obtained for URL `u` is never
written by the install population, whatever the asset list and starting
cache. -/
theorem addAllSafe_not_stored (net : Net) (u : String) (r : Response)
    (hu : net u = some r) (hbad : (r.ok || r.isOpaque) = false) :
    ∀ (urls : List String) (c : Cache),
      cacheMatch (addAllSafe net c urls) u = cacheMatch c u := by
  intro urls
  induction urls with
  | nil => intro c; rfl
  | cons w urls ih =>
    intro c
    simp only [addAllSafe, List.foldl_cons]
    have step : cacheMatch
        (match net w with
         | some res => if res.ok || res.isOpaque then cachePut c w res else c
         | none => c) u = cacheMatch c u := by
      by_cases hw : w = u
      · subst hw
        rw [hu]
        simp [hbad]
      · cases net w with
        | none => rfl
        | some res =>
          dsimp only
          split
          · exact cacheMatch_cachePut_ne c w u res (fun h => hw h.symm)
          · rfl
    exact (ih _).trans step

/-- C9: every cache write of the worker is guarded by the ok-or-opaque
test.  For a completed response that is neither: install population
leaves the entry for its URL unchanged; a cache-first miss returns it
with the partition untouched; a cache-first hit with background
revalidation leaves the partition untouched; stale-while-revalidate
leaves the partition untouched. -/
theorem only_ok_or_opaque_stored (r : Response)
    (hbad : (r.ok || r.isOpaque) = false) (net : Net) (urls : List String)
    (c : Cache) (u : String) (rv : Bool) (net2 : Option Response) :
    (net u = some r →
      cacheMatch (addAllSafe net c urls) u = cacheMatch c u) ∧
    (cacheMatch c u = none → cacheFirst (some r) c u rv = (some r, c)) ∧
    (∀ cd, cacheMatch c u = some cd → (cacheFirst (some r) c u rv).2 = c) ∧
    (staleWhileRevalidate (some r) net2 c u).2 = c := by
  refine ⟨?_, ?_, ?_, ?_⟩
  · intro hu
    exact addAllSafe_not_stored net u r hu hbad urls c
  · intro hmiss
    simp [cacheFirst, hmiss, hbad]
  · intro cd hcd
    cases rv <;> simp [cacheFirst, hcd, hbad]
  · cases hcm : cacheMatch c u <;> simp [staleWhileRevalidate, hcm, hbad]

/-- Concrete instantiation of `only_ok_or_opaque_stored` with a plain
404 response. -/
theorem only_ok_or_opaque_stored_witness :
    cacheMatch
      (addAllSafe (fun _ => some ⟨404, ResType.basic, "nf"⟩) cacheEmpty
        ["/x.css"]) "/x.css" = cacheMatch cacheEmpty "/x.css" ∧
    cacheFirst (some ⟨404, ResType.basic, "nf"⟩) cacheEmpty "/x.css" true =
      (some ⟨404, ResType.basic, "nf"⟩, cacheEmpty) :=
  ⟨(only_ok_or_opaque_stored ⟨404, ResType.basic, "nf"⟩ (by decide)
      (fun _ => some ⟨404, ResType.basic, "nf"⟩) ["/x.css"] cacheEmpty "/x.css"
      true none).1 rfl,
   (only_ok_or_opaque_stored ⟨404, ResType.basic, "nf"⟩ (by decide)
      (fun _ => some ⟨404, ResType.basic, "nf"⟩) ["/x.css"] cacheEmpty "/x.css"
      true none).2.1 rfl⟩

end SW
